import Mathlib

/-
  Verification of the session-processing pipeline of the
  arabic-medical-note-mvp repository.

  Shallow embedding of:
    src/db/models.py        (insert_doctor, insert_patient, insert_session,
                             get_existing_session_by_hash)
    src/utils/async_tasks.py (_heavy_pipeline)
    src/nlp/summarise.py    (summarize_transcript, _empty_note)
    src/nlp/transcribe.py   (_chunk and the speaker-tagging loop)
    src/utils/llm_helpers.py (safe_chat_completion)
    src/ui/job_manager.py   (add_job, refresh_jobs)

  External collaborators (PostgreSQL, the OpenAI client, json.loads, the
  file system / sha256) are modelled as explicit state (DB) or as oracle
  function parameters; everything the repository's own code does is
  translated directly from the source.
-/

/-! ## Relational store state (db/models.py, tables from setup_database) -/

/-- One row of the `sessions` table.  The table carries
`UNIQUE (user_id, audio_hash)`.  TEXT columns are modelled as `String`,
with SQL NULL collapsed onto `""` (both are falsy for the
`value or "No readout"` substitutions in the source). -/
structure SessionRow where
  id : Nat
  user_id : Nat
  doctor_id : Nat
  patient_id : Nat
  date : String
  transcript : String
  patient_complaint : String
  clinical_notes : String
  diagnosis : String
  treatment_plan : String
  audio_path : String
  audio_hash : String
deriving Repr, DecidableEq

/-- One row of the `doctors` table (`name TEXT UNIQUE`). -/
structure DoctorRow where
  id : Nat
  name : String
deriving Repr, DecidableEq

/-- One row of the `patients` table (`name TEXT`, no uniqueness). -/
structure PatientRow where
  id : Nat
  name : String
deriving Repr, DecidableEq

/-- The mutable database state: the three tables the pipeline touches,
plus the SERIAL counters that hand out fresh primary keys. -/
structure DB where
  doctors : List DoctorRow := []
  patients : List PatientRow := []
  sessions : List SessionRow := []
  nextDoctorId : Nat := 0
  nextPatientId : Nat := 0
  nextSessionId : Nat := 0
deriving Repr, DecidableEq

/-- The `insert_doctor` (models.py lines 98-116):
`INSERT INTO doctors (name) VALUES (%s) ON CONFLICT (name) DO UPDATE SET
name = EXCLUDED.name RETURNING id`.  On conflict the row keeps its id and
its (unchanged) name, and that id is returned; otherwise a fresh row is
appended.  (PostgreSQL also burns a SERIAL value on the conflicting
attempt; the claims do not depend on the numeric value of unused ids, so
the counter is advanced only on an actual insert.) -/
def insert_doctor (db : DB) (name : String) : DB × Nat :=
  match db.doctors.find? (fun d => d.name == name) with
  | some d => (db, d.id)
  | none =>
      ({ db with doctors := db.doctors ++ [⟨db.nextDoctorId, name⟩],
                 nextDoctorId := db.nextDoctorId + 1 },
       db.nextDoctorId)

/-- The `insert_patient` (models.py lines 119-137):
`INSERT INTO patients (name) VALUES (%s) RETURNING id` — a plain insert,
no ON CONFLICT clause, and the `patients` table has no uniqueness
constraint on `name`. -/
def insert_patient (db : DB) (name : String) : DB × Nat :=
  ({ db with patients := db.patients ++ [⟨db.nextPatientId, name⟩],
             nextPatientId := db.nextPatientId + 1 },
   db.nextPatientId)

/-- Whether a row for `(user_id, audio_hash)` already exists, i.e. whether
a plain INSERT into `sessions` would violate `UNIQUE (user_id, audio_hash)`. -/
def sessionConflict (db : DB) (user_id : Nat) (audio_hash : String) : Bool :=
  db.sessions.any (fun s => s.user_id == user_id && s.audio_hash == audio_hash)

/-- The `insert_session` (models.py lines 140-184): a plain
`INSERT INTO sessions (...) VALUES (...) RETURNING id` with no
ON CONFLICT clause.  When the unique constraint on
`(user_id, audio_hash)` is violated, psycopg2 raises (UniqueViolation);
that is the `.error ()` branch. -/
def insert_session (db : DB) (user_id doctor_id patient_id : Nat)
    (date transcript patient_complaint clinical_notes diagnosis
     treatment_plan audio_path audio_hash : String) :
    Except Unit (DB × Nat) :=
  if sessionConflict db user_id audio_hash then
    .error ()
  else
    .ok ({ db with
             sessions := db.sessions ++
               [⟨db.nextSessionId, user_id, doctor_id, patient_id, date,
                 transcript, patient_complaint, clinical_notes, diagnosis,
                 treatment_plan, audio_path, audio_hash⟩],
             nextSessionId := db.nextSessionId + 1 },
         db.nextSessionId)

/-- The `value or "No readout"` substitution applied by
`get_existing_session_by_hash` (and `get_session_details_by_index`):
a NULL or empty stored field is replaced by the placeholder. -/
def orNoReadout (s : String) : String :=
  if s == "" then "No readout" else s

/-- The dictionary `get_existing_session_by_hash` returns on a hit:
`dict(transcript=tr, summary_raw=summary, date=dt)`.  `summary_raw` is,
in the source, `json.dumps` of a four-key mapping; we model the mapping
itself (an association list in its insertion order) rather than its
serialized text. -/
structure CacheHit where
  transcript : String
  summary_raw : List (String × String)
  date : String
deriving Repr, DecidableEq

/-- The `get_existing_session_by_hash` (models.py lines 274-301): SELECT the
six columns for `(user_id, audio_hash)`; `ORDER BY date DESC LIMIT 1` is
modelled by taking the first matching row — the unique constraint keeps
at most one row per key in any state the code itself produces.  Note the
SELECT list does NOT include the session `id`. -/
def get_existing_session_by_hash (db : DB) (user_id : Nat)
    (audio_hash : String) : Option CacheHit :=
  match db.sessions.find?
      (fun s => s.user_id == user_id && s.audio_hash == audio_hash) with
  | none => none
  | some s =>
      some ⟨s.transcript,
            [("Patient Complaint", orNoReadout s.patient_complaint),
             ("Clinical Notes", orNoReadout s.clinical_notes),
             ("Diagnosis", orNoReadout s.diagnosis),
             ("Treatment Plan", orNoReadout s.treatment_plan)],
            s.date⟩

/-! ## The pipeline payload (utils/async_tasks.py) -/

/-- The payload dict `_heavy_pipeline` receives and enriches.  The first
five fields are the keys the pipeline reads from the submitted request
(`audio_path`, `user_id`, `doctor_name`, `patient_name`,
`date_selected`); the remaining fields model keys that the pipeline may
add, `none` meaning "key absent from the dict". -/
structure Payload where
  user_id : Nat
  doctor_name : String
  patient_name : String
  date_selected : String
  audio_path : String
  session_id : Option Nat := none
  transcript : Option String := none
  summary_raw : Option (List (String × String)) := none
  date : Option String := none
  pipeline_error : Option String := none
  analysis_ready : Bool := false
deriving Repr, DecidableEq

/-- The `summary_dict.get(key, "")` on the parsed summary mapping. -/
def dictGet (d : List (String × String)) (key : String) : String :=
  match d.find? (fun kv => kv.1 == key) with
  | some kv => kv.2
  | none => ""

/-- Errors `summarize_transcript` can raise to its caller. -/
inductive SummErr where
  /-- the `RuntimeError` re-raised after both models exhaust retries;
  `_heavy_pipeline` catches exactly this and stores `str(e)`. -/
  | runtime (msg : String)
  /-- The `note.update(json.loads(raw))` on a decoded non-object value raises
  a TypeError that nothing catches. -/
  | typeError
  /-- any unexpected exception from the LLM layer (re-raised unchanged). -/
  | unhandled
deriving Repr, DecidableEq

/-- Result of one `_heavy_pipeline` execution: the database afterwards,
either the returned payload or `.error ()` when an exception escaped the
function, and how many external transcription / summarization calls the
execution performed. -/
structure RunResult where
  db : DB
  outcome : Except Unit Payload
  transcribeCalls : Nat
  summarizeCalls : Nat

/-- The `_heavy_pipeline` (async_tasks.py lines 27-73), with the cache-check
SELECT evaluated against `cacheDb` — the database snapshot that SELECT
actually ran on — while the persistence stage runs against `db`.  In a
single-threaded run the two coincide (`_heavy_pipeline` below); keeping
them apart lets a concurrent interleaving, where another execution
commits between this execution's cache check and its insert, be stated
directly.

Oracles: `file_sha256` models utils/audio_io.file_sha256 (a deterministic
digest of the file at a path); `transcribe_audio` models
nlp/transcribe.transcribe_audio, whose result is `""` after transient
failure (the sentinel tested by `if not transcript`) and which re-raises
non-transient errors (`.error ()`); `summarize` models
nlp/summarise.summarize_transcript at the level of the parsed
`summary_dict` (the source round-trips it through `json.dumps` /
`json.loads`, which is the identity on the mapping). -/
def _heavy_pipeline_stale (file_sha256 : String → String)
    (transcribe_audio : String → Except Unit String)
    (summarize : String → Except SummErr (List (String × String)))
    (cacheDb db : DB) (payload : Payload) : RunResult :=
  let audio_hash := file_sha256 payload.audio_path
  -- ① Cache hit?
  match get_existing_session_by_hash cacheDb payload.user_id audio_hash with
  | some existing =>
      ⟨db, .ok { payload with
                   transcript := some existing.transcript,
                   summary_raw := some existing.summary_raw,
                   date := some existing.date,
                   analysis_ready := true }, 0, 0⟩
  | none =>
    -- ② Transcription
    match transcribe_audio payload.audio_path with
    | .error _ => ⟨db, .error (), 1, 0⟩
    | .ok transcript =>
      if transcript == "" then
        ⟨db, .ok { payload with pipeline_error := some "Transcription failed" },
         1, 0⟩
      else
        -- ③ Summarisation (`except RuntimeError as e` catches only .runtime)
        match summarize transcript with
        | .error (.runtime e) =>
            ⟨db, .ok { payload with pipeline_error := some e }, 1, 1⟩
        | .error .typeError => ⟨db, .error (), 1, 1⟩
        | .error .unhandled => ⟨db, .error (), 1, 1⟩
        | .ok summary_dict =>
          -- ④ Persistence
          let r1 := insert_doctor db payload.doctor_name
          let r2 := insert_patient r1.1 payload.patient_name
          match insert_session r2.1 payload.user_id r1.2 r2.2
              payload.date_selected transcript
              (dictGet summary_dict "Patient Complaint")
              (dictGet summary_dict "Clinical Notes")
              (dictGet summary_dict "Diagnosis")
              (dictGet summary_dict "Treatment Plan")
              payload.audio_path audio_hash with
          | .error _ => ⟨r2.1, .error (), 1, 1⟩
          | .ok (db3, sess_id) =>
              ⟨db3, .ok { payload with
                            session_id := some sess_id,
                            transcript := some transcript,
                            summary_raw := some summary_dict,
                            analysis_ready := true }, 1, 1⟩

/-- The `_heavy_pipeline` as the code runs it serially: the cache check reads
the same database state the persistence stage writes to. -/
def _heavy_pipeline (file_sha256 : String → String)
    (transcribe_audio : String → Except Unit String)
    (summarize : String → Except SummErr (List (String × String)))
    (db : DB) (payload : Payload) : RunResult :=
  _heavy_pipeline_stale file_sha256 transcribe_audio summarize db db payload

/-- The `session_id` key of a run's returned payload, `none` when absent
or when the run raised. -/
def sessionIdOf (r : RunResult) : Option Nat :=
  match r.outcome with
  | .ok p => p.session_id
  | .error _ => none

/-- The `transcript` key of a run's returned payload. -/
def transcriptOf (r : RunResult) : Option String :=
  match r.outcome with
  | .ok p => p.transcript
  | .error _ => none

/-- The `summary_raw` key of a run's returned payload. -/
def summaryOf (r : RunResult) : Option (List (String × String)) :=
  match r.outcome with
  | .ok p => p.summary_raw
  | .error _ => none

/-! ## Retry / fallback layer (utils/llm_helpers.py `safe_chat_completion`) -/

/-- Outcome of one attempted chat-completion API call. -/
inductive CallOutcome where
  /-- the call returned, `s` being `message.content.strip()`. -/
  | ok (s : String)
  /-- The `openai.RateLimitError`. -/
  | rateLimit
  /-- The `openai.APIError` other than a rate limit. -/
  | apiError
  /-- any exception outside the `(RateLimitError, APIError)` family. -/
  | other
deriving Repr, DecidableEq

/-- The tenacity `@retry(reraise=True, stop=stop_after_attempt(k))`
wrapper around `_try`: successive attempts are read from the oracle
`attempts` starting at index `start`; the first success is returned, and
after `k` failed attempts the last exception is re-raised (the failing
outcome is returned).  tenacity retries on every exception class. -/
def retryCall (attempts : Nat → CallOutcome) : Nat → Nat → CallOutcome
  | _start, 0 => .other
  | start, 1 => attempts start
  | start, n + 2 =>
      match attempts start with
      | .ok s => .ok s
      | _ => retryCall attempts (start + 1) (n + 1)

/-- What `safe_chat_completion` does for its caller. -/
inductive ChatResult where
  /-- returned a response text. -/
  | ok (s : String)
  /-- raised `RuntimeError("LLM request failed after retries")`. -/
  | terminal
  /-- re-raised a non-(RateLimit/API) exception from the primary attempts;
  nothing in `safe_chat_completion` converts or catches it. -/
  | unhandledPrimary
deriving Repr, DecidableEq

/-- The fallback half of `safe_chat_completion`: try the fallback model
up to 3 times; `except Exception` turns any remaining failure into the
terminal RuntimeError. -/
def fallbackCompletion (fallAttempts : Nat → CallOutcome) : ChatResult :=
  match retryCall fallAttempts 0 3 with
  | .ok s => .ok s
  | _ => .terminal

/-- The `safe_chat_completion` (llm_helpers.py lines 20-70): the primary
model is tried up to 3 times; `except (RateLimitError, APIError)` routes
those two failure classes to the fallback model; any other exception
propagates unchanged.  `primAttempts` / `fallAttempts` are oracles giving
the outcome of the i-th attempt against each model. -/
def safe_chat_completion (primAttempts fallAttempts : Nat → CallOutcome) :
    ChatResult :=
  match retryCall primAttempts 0 3 with
  | .ok s => .ok s
  | .rateLimit => fallbackCompletion fallAttempts
  | .apiError => fallbackCompletion fallAttempts
  | .other => .unhandledPrimary

/-! ## Summarization adapter (nlp/summarise.py) -/

/-- A decoded JSON value, the possible results of `json.loads`. -/
inductive JsonVal where
  | str (s : String)
  | num (n : Int)
  | bool (b : Bool)
  | null
  | arr (elems : List JsonVal)
  | obj (fields : List (String × JsonVal))
deriving Repr

/-- The `SCHEMA_KEYS` (summarise.py lines 13-18). -/
def SCHEMA_KEYS : List String :=
  ["Patient Complaint", "Clinical Notes", "Diagnosis", "Treatment Plan"]

/-- The `_empty_note` (summarise.py lines 37-39): every schema key mapped to
the empty string. -/
def _empty_note : List (String × JsonVal) :=
  SCHEMA_KEYS.map (fun k => (k, JsonVal.str ""))

/-- The `d[k] = v` on a Python dict modelled as an insertion-ordered
association list: an existing key keeps its position and is overwritten,
a new key is appended. -/
def dictSet (d : List (String × JsonVal)) (k : String) (v : JsonVal) :
    List (String × JsonVal) :=
  if d.any (fun kv => kv.1 == k) then
    d.map (fun kv => if kv.1 == k then (k, v) else kv)
  else
    d ++ [(k, v)]

/-- The `note.update(mapping)`: set each key/value pair of the argument in
order. -/
def dictUpdate (d : List (String × JsonVal)) :
    List (String × JsonVal) → List (String × JsonVal)
  | [] => d
  | (k, v) :: rest => dictUpdate (dictSet d k v) rest

/-- Python's `str.strip()`: drop whitespace from both ends of the
character sequence. -/
def pyStrip (s : String) : String :=
  ⟨((s.data.dropWhile Char.isWhitespace).reverse.dropWhile
      Char.isWhitespace).reverse⟩

/-- The post-processing of summarise.py lines 92-99: start from
`_empty_note`; a `json.JSONDecodeError` from `json.loads(raw)` is caught
and the stripped raw response is stored under `"Diagnosis"`; a decoded
JSON object is merged over the empty note by `note.update`.  `note.update`
on a decoded non-object raises an uncaught TypeError — the `.error`
branch.  (Python's `dict.update` would also accept a decoded list of
two-element `[key, value]` arrays; no theorem below depends on that
shape, and it is folded into the error branch here.) -/
def noteFromRaw (raw : String) (parsed : Except Unit JsonVal) :
    Except Unit (List (String × JsonVal)) :=
  match parsed with
  | .error _ => .ok (dictSet _empty_note "Diagnosis" (.str (pyStrip raw)))
  | .ok (.obj fields) => .ok (dictUpdate _empty_note fields)
  | .ok _ => .error ()

/-- Python `transcript[:15_000]`: the first 15000 characters (code
points) of the string. -/
def pyStringSlice (s : String) (n : Nat) : String :=
  ⟨s.data.take n⟩

/-- The defensive shortening of summarise.py lines 56-61. -/
def truncateTranscript (transcript : String) : String :=
  if transcript.length > 15000 then pyStringSlice transcript 15000
  else transcript

/-- One chat message. -/
structure ChatMessage where
  role : String
  content : String
deriving Repr, DecidableEq

/-- The `SYSTEM` prompt of summarise.py (after `textwrap.dedent` and
`.strip()`). -/
def SYSTEM : String :=
  "You are an experienced clinical scribe.\n" ++
  "Read the following Arabic medical dialogue and RETURN valid JSON with exactly these English keys:\n" ++
  "  Patient Complaint\n  Clinical Notes\n  Diagnosis\n  Treatment Plan\n\n" ++
  "All values MUST be in English only.\n" ++
  "Always include all keys, even if the value is an empty string.\n" ++
  "No other text or fields are allowed."

/-- The message list summarise.py builds (lines 63-76) for a given
(already truncated) transcript and tone. -/
def summarizeMessages (tone : String) (transcript : String) :
    List ChatMessage :=
  let style := if tone == "telegraphic" then "Use short bullet points."
               else "Write full sentences."
  [⟨"system", SYSTEM⟩,
   ⟨"user", style ++ "\n\nConversation (Arabic) is between triple backticks:\n```"
            ++ transcript ++ "```\n"⟩]

/-- The `summarize_transcript` (summarise.py lines 42-103), at its default
tone.  `llm` is the oracle for `safe_chat_completion` on a message list;
`jsonLoads` is the oracle for Python's `json.loads` (a fixed
deterministic parser).  The source finishes with
`json.dumps(note, ensure_ascii=False)`; we return the `note` mapping
itself, which that serialization carries verbatim. -/
def summarize_transcript (llm : List ChatMessage → ChatResult)
    (jsonLoads : String → Except Unit JsonVal) (transcript : String) :
    Except SummErr (List (String × JsonVal)) :=
  let transcript := truncateTranscript transcript
  match llm (summarizeMessages "telegraphic" transcript) with
  | .terminal => .error (.runtime "LLM request failed after retries")
  | .unhandledPrimary => .error .unhandled
  | .ok raw =>
      match noteFromRaw raw (jsonLoads raw) with
      | .error _ => .error .typeError
      | .ok note => .ok note

/-! ## Speaker tagging (nlp/transcribe.py lines 68-70 and 107-119) -/

/-- The `_chunk(lines, 100)` (transcribe.py lines 68-70): the loop
`for i in range(0, len(lines), 100): yield lines[i : i + 100]`, written
with structural recursion on a fuel counter.  Each step consumes at
least one line, so `lines.length` fuel always suffices; the
out-of-fuel branch is never reached from `chunkList`. -/
def chunkListAux : Nat → List String → List (List String)
  | _, [] => []
  | 0, _ :: _ => []
  | fuel + 1, l => l.take 100 :: chunkListAux fuel (l.drop 100)

/-- The `list(_chunk(lines, 100))`. -/
def chunkList (lines : List String) : List (List String) :=
  chunkListAux lines.length lines

/-- One iteration of the tagging loop: `_tag_chunk` (with its own
retries, abstracted into the `tagger` oracle) on the joined chunk; on any
exception the raw joined lines are kept instead. -/
def taggedBlock (tagger : String → Except Unit String)
    (chunk : List String) : String :=
  match tagger (String.intercalate "\n" chunk) with
  | .ok t => t
  | .error _ => String.intercalate "\n" chunk

/-- The speaker-tagging pass of `transcribe_audio` (transcribe.py lines
111-119), operating on the line list `txt.splitlines()`: tag each
≤100-line chunk, keep the raw chunk on failure, and join all blocks with
newlines. -/
def tagStage (tagger : String → Except Unit String)
    (lines : List String) : String :=
  String.intercalate "\n" ((chunkList lines).map (taggedBlock tagger))

/-! ## Job registry (ui/job_manager.py) -/

/-- The observable state of a `concurrent.futures.Future`. -/
inductive FutState where
  | pending
  | raised
  | completed (res : Payload)
deriving Repr, DecidableEq

/-- One entry of `st.session_state.jobs`. -/
structure Job where
  future : FutState
  status : String
  session_id : Option Nat := none
deriving Repr, DecidableEq

/-- The status strings job_manager.py writes. -/
def statusPending : String := "⏳ pending"

/-- Status written when `fut.exception()` is truthy. -/
def statusError : String := "❌ error"

/-- Status written when the future completed without an exception. -/
def statusDone : String := "✅ done"

/-- The `add_job` (job_manager.py lines 24-43): a new entry starts pending
with no `session_id` key. -/
def add_job (fut : FutState) : Job :=
  ⟨fut, statusPending, none⟩

/-- The body of the `refresh_jobs` loop (job_manager.py lines 49-59) for
one job: a not-yet-done future leaves the entry alone; a future that
raised gets the error status; a completed future gets the done status
and, only when the result dict carries a `session_id` key, that id is
copied into the entry.  (`if res` is always truthy: the payload dict
always has at least the submitted keys.) -/
def refreshJob (job : Job) : Job :=
  match job.future with
  | .pending => job
  | .raised => { job with status := statusError }
  | .completed res =>
      let j := { job with status := statusDone }
      if res.session_id.isSome then { j with session_id := res.session_id }
      else j

/-- The `refresh_jobs` over the whole registry. -/
def refresh_jobs (jobs : List Job) : List Job :=
  jobs.map refreshJob

/-! ## Observation helpers on run results -/

/-- The `pipeline_error` key of a run's returned payload. -/
def pipelineErrorOf (r : RunResult) : Option String :=
  match r.outcome with
  | .ok p => p.pipeline_error
  | .error _ => none

/-- Whether an exception escaped `_heavy_pipeline` in this run. -/
def raisedRun (r : RunResult) : Bool :=
  match r.outcome with
  | .ok _ => false
  | .error _ => true

/-- How many `sessions` rows a database holds for a given
`(user_id, audio_hash)` pair. -/
def sessionCount (db : DB) (user_id : Nat) (audio_hash : String) : Nat :=
  db.sessions.countP
    (fun s => s.user_id == user_id && s.audio_hash == audio_hash)

/-! ## Concrete fixtures used by counterexamples and witnesses -/

/-- A content digest oracle: every file hashes to `"H"` (one fixed audio
content throughout the scenario). -/
def shaC : String → String := fun _ => "H"

/-- A transcription oracle that succeeds with transcript `"T"`. -/
def trC : String → Except Unit String := fun _ => .ok "T"

/-- A fixed well-formed summary mapping. -/
def noteC : List (String × String) :=
  [("Patient Complaint", "PC"), ("Clinical Notes", "CN"),
   ("Diagnosis", "D"), ("Treatment Plan", "TP")]

/-- A summarization oracle that succeeds with `noteC`. -/
def smC : String → Except SummErr (List (String × String)) :=
  fun _ => .ok noteC

/-- A summarization oracle whose both models exhausted their retries:
`summarize_transcript` re-raises the terminal RuntimeError. -/
def smErrC : String → Except SummErr (List (String × String)) :=
  fun _ => .error (.runtime "LLM request failed after retries")

/-- A submitted session request (the payload `enqueue_job` receives). -/
def p0 : Payload :=
  { user_id := 1, doctor_name := "Dr", patient_name := "Pa",
    date_selected := "2026-01-01", audio_path := "a.wav" }

/-- An empty initial database. -/
def db0 : DB := {}

/-- First submission of the audio at `"a.wav"` for user 1. -/
def r1C : RunResult := _heavy_pipeline shaC trC smC db0 p0

/-- Second, identical submission, run serially after the first. -/
def r2C : RunResult := _heavy_pipeline shaC trC smC r1C.db p0

/-! ## Helper lemmas -/

/-- The `insert_doctor` touches only the `doctors` table and its counter. -/
theorem insert_doctor_frame (db : DB) (n : String) :
    (insert_doctor db n).1.sessions = db.sessions ∧
    (insert_doctor db n).1.nextSessionId = db.nextSessionId ∧
    (insert_doctor db n).1.patients = db.patients ∧
    (insert_doctor db n).1.nextPatientId = db.nextPatientId := by
  unfold insert_doctor
  cases db.doctors.find? (fun d => d.name == n) <;> simp

/-- The `insert_patient` touches only the `patients` table and its counter. -/
theorem insert_patient_frame (db : DB) (n : String) :
    (insert_patient db n).1.sessions = db.sessions ∧
    (insert_patient db n).1.nextSessionId = db.nextSessionId := by
  simp [insert_patient]

/-- The `l.any p` agrees with `(l.find? p).isSome`. -/
theorem any_eq_find?_isSome {α : Type} (l : List α) (p : α → Bool) :
    l.any p = (l.find? p).isSome := by
  induction l with
  | nil => rfl
  | cons x xs ih => cases hp : p x <;> simp [List.any_cons, List.find?_cons, hp, ih]

/-- A cache miss is exactly the absence of a matching `sessions` row. -/
theorem get_existing_none_iff (db : DB) (u : Nat) (h : String) :
    get_existing_session_by_hash db u h = none ↔
      db.sessions.find? (fun s => s.user_id == u && s.audio_hash == h) = none := by
  unfold get_existing_session_by_hash
  cases hf : db.sessions.find? (fun s => s.user_id == u && s.audio_hash == h) <;>
    simp [hf]

/-- A cache miss means a plain session INSERT will not conflict. -/
theorem sessionConflict_false_of_cache_miss (db : DB) (u : Nat) (h : String)
    (hc : get_existing_session_by_hash db u h = none) :
    sessionConflict db u h = false := by
  have hf := (get_existing_none_iff db u h).mp hc
  unfold sessionConflict
  rw [any_eq_find?_isSome, hf]
  rfl

/-- The `find?` skips a prefix in which nothing matches. -/
theorem find?_append_of_none {α : Type} (l1 l2 : List α) (p : α → Bool)
    (h : l1.find? p = none) : (l1 ++ l2).find? p = l2.find? p := by
  induction l1 with
  | nil => simp
  | cons x xs ih =>
      cases hp : p x
      · rw [List.find?_cons_of_neg _ (by simp [hp])] at h
        rw [List.cons_append, List.find?_cons_of_neg _ (by simp [hp])]
        exact ih h
      · rw [List.find?_cons_of_pos _ hp] at h
        exact absurd h (by simp)

/-- The session row `_heavy_pipeline` inserts on a cache miss, given the
database state at persistence time, the transcript and the parsed
summary mapping. -/
def insertedRow (db : DB) (p : Payload) (audio_hash t : String)
    (note : List (String × String)) : SessionRow :=
  ⟨db.nextSessionId, p.user_id,
   (insert_doctor db p.doctor_name).2,
   (insert_patient (insert_doctor db p.doctor_name).1 p.patient_name).2,
   p.date_selected, t,
   dictGet note "Patient Complaint", dictGet note "Clinical Notes",
   dictGet note "Diagnosis", dictGet note "Treatment Plan",
   p.audio_path, audio_hash⟩

/-- Evaluation of a serial `_heavy_pipeline` run that misses the cache,
transcribes successfully and summarizes successfully: the payload comes
back with the fresh session id, and exactly the one new row is
appended. -/
theorem pipeline_success_run (sha : String → String)
    (tr : String → Except Unit String)
    (sm : String → Except SummErr (List (String × String)))
    (db : DB) (p : Payload) (t : String) (note : List (String × String))
    (hcache : get_existing_session_by_hash db p.user_id (sha p.audio_path) = none)
    (htr : tr p.audio_path = .ok t) (ht : t ≠ "")
    (hsm : sm t = .ok note) :
    (_heavy_pipeline sha tr sm db p).outcome =
        .ok { p with session_id := some db.nextSessionId,
                     transcript := some t, summary_raw := some note,
                     analysis_ready := true } ∧
    (_heavy_pipeline sha tr sm db p).db.sessions =
        db.sessions ++ [insertedRow db p (sha p.audio_path) t note] ∧
    (_heavy_pipeline sha tr sm db p).transcribeCalls = 1 ∧
    (_heavy_pipeline sha tr sm db p).summarizeCalls = 1 := by
  have h1 := insert_doctor_frame db p.doctor_name
  have h2 := insert_patient_frame (insert_doctor db p.doctor_name).1 p.patient_name
  have hconf : sessionConflict
      (insert_patient (insert_doctor db p.doctor_name).1 p.patient_name).1
      p.user_id (sha p.audio_path) = false := by
    have h0 := sessionConflict_false_of_cache_miss db p.user_id (sha p.audio_path) hcache
    unfold sessionConflict at h0 ⊢
    rw [h2.1, h1.1]
    exact h0
  unfold _heavy_pipeline _heavy_pipeline_stale
  simp only [hcache, htr, hsm]
  rw [if_neg (by simp [ht])]
  unfold insert_session
  simp only [hconf, Bool.false_eq_true, if_false]
  refine ⟨?_, ?_, ?_, ?_⟩
  · simp only [h2.2, h1.2.1]
  · simp only [h2.1, h1.1, h2.2, h1.2.1, insertedRow]
  · trivial
  · trivial

/-- Evaluation of a `_heavy_pipeline` run that hits the cache: no call,
no write, and the stored row comes back with the `No readout`
substitutions applied. -/
theorem pipeline_cache_hit_run (sha : String → String)
    (tr : String → Except Unit String)
    (sm : String → Except SummErr (List (String × String)))
    (db : DB) (p : Payload) (s : SessionRow)
    (hf : db.sessions.find?
        (fun r => r.user_id == p.user_id && r.audio_hash == sha p.audio_path)
        = some s) :
    _heavy_pipeline sha tr sm db p =
      ⟨db, .ok { p with
                   transcript := some s.transcript,
                   summary_raw := some
                     [("Patient Complaint", orNoReadout s.patient_complaint),
                      ("Clinical Notes", orNoReadout s.clinical_notes),
                      ("Diagnosis", orNoReadout s.diagnosis),
                      ("Treatment Plan", orNoReadout s.treatment_plan)],
                   date := some s.date, analysis_ready := true }, 0, 0⟩ := by
  simp only [_heavy_pipeline, _heavy_pipeline_stale, get_existing_session_by_hash, hf]

/-- The `find?` on a list with one matching row appended at the end. -/
theorem find?_snoc_self (l : List SessionRow) (u : Nat) (h : String)
    (row : SessionRow)
    (hl : l.find? (fun r => r.user_id == u && r.audio_hash == h) = none)
    (hu : row.user_id = u) (hh : row.audio_hash = h) :
    (l ++ [row]).find? (fun r => r.user_id == u && r.audio_hash == h)
      = some row := by
  rw [find?_append_of_none _ _ _ hl]
  simp [List.find?_cons, hu, hh]

/-- If `find?` sees nothing, `countP` counts nothing. -/
theorem countP_zero_of_find?_none {α : Type} (l : List α) (p : α → Bool)
    (h : l.find? p = none) : l.countP p = 0 := by
  induction l with
  | nil => simp
  | cons x xs ih =>
      cases hp : p x
      · rw [List.find?_cons_of_neg _ (by simp [hp])] at h
        simp [List.countP_cons, hp, ih h]
      · rw [List.find?_cons_of_pos _ hp] at h
        exact absurd h (by simp)

/-- Two serial submissions of the same request: the run on `db` and the
run on the database that first run left behind. -/
def runTwice (sha : String → String) (tr : String → Except Unit String)
    (sm : String → Except SummErr (List (String × String)))
    (db : DB) (p : Payload) : RunResult × RunResult :=
  (_heavy_pipeline sha tr sm db p,
   _heavy_pipeline sha tr sm (_heavy_pipeline sha tr sm db p).db p)

/-- C1 (amended).  Submitting the same audio twice for the same user,
serially, with both external calls succeeding: the first run returns the
fresh session id and performs one transcription and one summarization
call; the second run is a pure cache hit — no external calls, no write,
exactly one row for (user id, fingerprint) — but its returned payload
carries NO session identifier at all (the cache-hit SELECT does not
return the row id), so the two submissions do not yield the same session
identifier. -/
theorem C1_resubmission_amended (sha : String → String)
    (tr : String → Except Unit String)
    (sm : String → Except SummErr (List (String × String)))
    (db : DB) (p : Payload) (t : String) (note : List (String × String))
    (hcache : get_existing_session_by_hash db p.user_id (sha p.audio_path) = none)
    (htr : tr p.audio_path = .ok t) (ht : t ≠ "")
    (hsm : sm t = .ok note) (hsid : p.session_id = none) :
    sessionIdOf (runTwice sha tr sm db p).1 = some db.nextSessionId ∧
    sessionIdOf (runTwice sha tr sm db p).2 = none ∧
    (runTwice sha tr sm db p).1.transcribeCalls = 1 ∧
    (runTwice sha tr sm db p).1.summarizeCalls = 1 ∧
    (runTwice sha tr sm db p).2.transcribeCalls = 0 ∧
    (runTwice sha tr sm db p).2.summarizeCalls = 0 ∧
    sessionCount (runTwice sha tr sm db p).1.db p.user_id (sha p.audio_path) = 1 ∧
    (runTwice sha tr sm db p).2.db = (runTwice sha tr sm db p).1.db ∧
    (runTwice sha tr sm db p).2.outcome =
      .ok { p with
              transcript := some t,
              summary_raw := some
                [("Patient Complaint", orNoReadout (dictGet note "Patient Complaint")),
                 ("Clinical Notes", orNoReadout (dictGet note "Clinical Notes")),
                 ("Diagnosis", orNoReadout (dictGet note "Diagnosis")),
                 ("Treatment Plan", orNoReadout (dictGet note "Treatment Plan"))],
              date := some p.date_selected, analysis_ready := true } := by
  obtain ⟨hout, hsess, hc1, hc2⟩ :=
    pipeline_success_run sha tr sm db p t note hcache htr ht hsm
  have hfind0 := (get_existing_none_iff db p.user_id (sha p.audio_path)).mp hcache
  have hfind : (_heavy_pipeline sha tr sm db p).db.sessions.find?
      (fun r => r.user_id == p.user_id && r.audio_hash == sha p.audio_path)
      = some (insertedRow db p (sha p.audio_path) t note) := by
    rw [hsess]
    exact find?_snoc_self _ _ _ _ hfind0 rfl rfl
  have hr2 := pipeline_cache_hit_run sha tr sm
    (_heavy_pipeline sha tr sm db p).db p _ hfind
  refine ⟨?_, ?_, hc1, hc2, ?_, ?_, ?_, ?_, ?_⟩
  · simp [runTwice, sessionIdOf, hout]
  · simp [runTwice, sessionIdOf, hr2, hsid]
  · simp [runTwice, hr2]
  · simp [runTwice, hr2]
  · unfold sessionCount runTwice
    rw [hsess, List.countP_append,
        countP_zero_of_find?_none _ _ hfind0]
    simp [insertedRow, List.countP_cons]
  · simp [runTwice, hr2]
  · simp only [runTwice, hr2, insertedRow]

/-- C1 counterexample: with one fixed audio content, a fresh database
and successful external calls, the first submission's payload carries
session id 0 while the second submission's payload carries no session id
— the two submissions do not yield the same session identifier. -/
theorem C1_counterexample :
    sessionIdOf r1C = some 0 ∧ sessionIdOf r2C = none ∧
    raisedRun r2C = false ∧ transcriptOf r2C = some "T" := by decide

/-- C1 witness: the amended theorem applied to the concrete scenario. -/
theorem C1_witness :
    sessionIdOf (runTwice shaC trC smC db0 p0).1 = some 0 ∧
    sessionIdOf (runTwice shaC trC smC db0 p0).2 = none := by
  have h := C1_resubmission_amended shaC trC smC db0 p0 "T" noteC
    rfl rfl (by decide) rfl rfl
  exact ⟨h.1, h.2.1⟩

/-- C2 (amended).  In the race where both invocations' cache-check
SELECTs run against the pre-commit database `db` and invocation A
commits first, the unique constraint does keep the `sessions` table at
exactly one row for (user id, fingerprint) — but the losing invocation B
does NOT re-read the existing record: its plain INSERT raises a
uniqueness violation that `_heavy_pipeline` never catches (only
`RuntimeError` around the summarization step is caught), so B's
execution errors. -/
theorem C2_race_amended (sha : String → String)
    (tr : String → Except Unit String)
    (sm : String → Except SummErr (List (String × String)))
    (db : DB) (p : Payload) (t : String) (note : List (String × String))
    (hcache : get_existing_session_by_hash db p.user_id (sha p.audio_path) = none)
    (htr : tr p.audio_path = .ok t) (ht : t ≠ "")
    (hsm : sm t = .ok note) :
    raisedRun (_heavy_pipeline_stale sha tr sm db
        (_heavy_pipeline sha tr sm db p).db p) = true ∧
    (_heavy_pipeline_stale sha tr sm db
        (_heavy_pipeline sha tr sm db p).db p).db.sessions
      = (_heavy_pipeline sha tr sm db p).db.sessions ∧
    sessionCount (_heavy_pipeline_stale sha tr sm db
        (_heavy_pipeline sha tr sm db p).db p).db
      p.user_id (sha p.audio_path) = 1 := by
  obtain ⟨hout, hsess, hc1, hc2⟩ :=
    pipeline_success_run sha tr sm db p t note hcache htr ht hsm
  have hfind0 := (get_existing_none_iff db p.user_id (sha p.audio_path)).mp hcache
  have hfind : (_heavy_pipeline sha tr sm db p).db.sessions.find?
      (fun r => r.user_id == p.user_id && r.audio_hash == sha p.audio_path)
      = some (insertedRow db p (sha p.audio_path) t note) := by
    rw [hsess]
    exact find?_snoc_self _ _ _ _ hfind0 rfl rfl
  have h1 := insert_doctor_frame (_heavy_pipeline sha tr sm db p).db p.doctor_name
  have h2 := insert_patient_frame
    (insert_doctor (_heavy_pipeline sha tr sm db p).db p.doctor_name).1
    p.patient_name
  have hconf : sessionConflict
      (insert_patient
        (insert_doctor (_heavy_pipeline sha tr sm db p).db p.doctor_name).1
        p.patient_name).1
      p.user_id (sha p.audio_path) = true := by
    unfold sessionConflict
    rw [h2.1, h1.1, any_eq_find?_isSome, hfind]
    rfl
  have hrB : _heavy_pipeline_stale sha tr sm db
      (_heavy_pipeline sha tr sm db p).db p =
      ⟨(insert_patient
          (insert_doctor (_heavy_pipeline sha tr sm db p).db p.doctor_name).1
          p.patient_name).1, .error (), 1, 1⟩ := by
    unfold _heavy_pipeline_stale insert_session
    simp only [hcache, htr, hsm]
    rw [if_neg (by simp [ht])]
    simp only [hconf, if_true]
  refine ⟨?_, ?_, ?_⟩
  · simp [hrB, raisedRun]
  · simp [hrB, h2.1, h1.1]
  · unfold sessionCount
    rw [hrB]
    simp only [h2.1, h1.1]
    rw [hsess, List.countP_append, countP_zero_of_find?_none _ _ hfind0]
    simp [insertedRow, List.countP_cons]

/-- The losing invocation of the concrete race: its cache check ran
against the empty pre-commit database, its persistence stage against the
database the winning run `r1C` committed. -/
def rBC : RunResult := _heavy_pipeline_stale shaC trC smC db0 r1C.db p0

/-- C2 counterexample: in the concrete race, the table ends with exactly
one session row, but the losing invocation raises an uncaught error —
the orchestrator does not re-read the existing record, contradicting
"neither invocation errors". -/
theorem C2_counterexample :
    raisedRun rBC = true ∧ rBC.db.sessions.length = 1 := by decide

/-- C2 witness: the amended theorem applied to the concrete race. -/
theorem C2_witness :
    raisedRun (_heavy_pipeline_stale shaC trC smC db0
      (_heavy_pipeline shaC trC smC db0 p0).db p0) = true := by
  exact (C2_race_amended shaC trC smC db0 p0 "T" noteC
    rfl rfl (by decide) rfl).1

/-- C3 (amended).  When transcription succeeds but summarization raises
the terminal RuntimeError, `_heavy_pipeline` returns the payload with
only the error classification added: the produced transcript is NOT
copied into the error payload (the `transcript` key keeps whatever the
submitted payload had, i.e. it is absent), and nothing is persisted. -/
theorem C3_error_payload_amended (sha : String → String)
    (tr : String → Except Unit String)
    (sm : String → Except SummErr (List (String × String)))
    (db : DB) (p : Payload) (t msg : String)
    (hcache : get_existing_session_by_hash db p.user_id (sha p.audio_path) = none)
    (htr : tr p.audio_path = .ok t) (ht : t ≠ "")
    (hsm : sm t = .error (.runtime msg)) :
    (_heavy_pipeline sha tr sm db p).outcome =
      .ok { p with pipeline_error := some msg } ∧
    transcriptOf (_heavy_pipeline sha tr sm db p) = p.transcript ∧
    (p.transcript = none →
      transcriptOf (_heavy_pipeline sha tr sm db p) = none) ∧
    (_heavy_pipeline sha tr sm db p).db = db := by
  have hrun : _heavy_pipeline sha tr sm db p =
      ⟨db, .ok { p with pipeline_error := some msg }, 1, 1⟩ := by
    unfold _heavy_pipeline _heavy_pipeline_stale
    simp only [hcache, htr, hsm]
    rw [if_neg (by simp [ht])]
  refine ⟨?_, ?_, ?_, ?_⟩
  · rw [hrun]
  · simp [hrun, transcriptOf]
  · intro hnone
    simp [hrun, transcriptOf, hnone]
  · rw [hrun]

/-- The concrete run in which summarization terminally fails after a
successful transcription. -/
def rErrC : RunResult := _heavy_pipeline shaC trC smErrC db0 p0

/-- C3 counterexample: the error result carries the classification but
no `transcript` key at all — the produced transcript `"T"` is absent,
contradicting "still contains the produced transcript text verbatim". -/
theorem C3_counterexample :
    pipelineErrorOf rErrC = some "LLM request failed after retries" ∧
    raisedRun rErrC = false ∧
    transcriptOf rErrC = none := by decide

/-- C3 witness: the amended theorem applied to the concrete failing
summarization. -/
theorem C3_witness :
    (_heavy_pipeline shaC trC smErrC db0 p0).outcome =
      .ok { p0 with pipeline_error := some "LLM request failed after retries" } := by
  exact (C3_error_payload_amended shaC trC smErrC db0 p0 "T"
    "LLM request failed after retries" rfl rfl (by decide) rfl).1

/-- C5 (amended).  On a cache hit the orchestrator does short-circuit to
DONE with no external call and no write, and the stored transcript comes
back unchanged — but the four note fields are NOT returned exactly as
persisted: each empty (or NULL) stored field is replaced by the
placeholder `"No readout"`; only non-empty fields come back unchanged. -/
theorem C5_cache_hit_amended (sha : String → String)
    (tr : String → Except Unit String)
    (sm : String → Except SummErr (List (String × String)))
    (db : DB) (p : Payload) (s : SessionRow)
    (hf : db.sessions.find?
        (fun r => r.user_id == p.user_id && r.audio_hash == sha p.audio_path)
        = some s) :
    _heavy_pipeline sha tr sm db p =
      ⟨db, .ok { p with
                   transcript := some s.transcript,
                   summary_raw := some
                     [("Patient Complaint", orNoReadout s.patient_complaint),
                      ("Clinical Notes", orNoReadout s.clinical_notes),
                      ("Diagnosis", orNoReadout s.diagnosis),
                      ("Treatment Plan", orNoReadout s.treatment_plan)],
                   date := some s.date, analysis_ready := true }, 0, 0⟩ ∧
    orNoReadout "" = "No readout" ∧
    (∀ x : String, x ≠ "" → orNoReadout x = x) := by
  refine ⟨pipeline_cache_hit_run sha tr sm db p s hf, rfl, ?_⟩
  intro x hx
  simp [orNoReadout, hx]

/-- A database holding one session row for user 1 and hash `"H"` whose
stored `patient_complaint` is empty. -/
def db5C : DB :=
  { sessions := [⟨0, 1, 0, 0, "2026-01-01", "T", "", "CN", "D", "TP",
                  "a.wav", "H"⟩],
    nextSessionId := 1 }

/-- The concrete cache-hit run against `db5C`. -/
def r5C : RunResult := _heavy_pipeline shaC trC smC db5C p0

/-- C5 counterexample: the persisted `patient_complaint` is `""`, yet
the cache-hit payload carries `"No readout"` for it — the stored
Structured Note fields are not returned exactly as persisted. -/
theorem C5_counterexample :
    db5C.sessions.map (fun s => s.patient_complaint) = [""] ∧
    summaryOf r5C = some
      [("Patient Complaint", "No readout"), ("Clinical Notes", "CN"),
       ("Diagnosis", "D"), ("Treatment Plan", "TP")] ∧
    summaryOf r5C ≠ some
      [("Patient Complaint", ""), ("Clinical Notes", "CN"),
       ("Diagnosis", "D"), ("Treatment Plan", "TP")] := by decide

/-- C5 witness: the amended theorem applied to the concrete cache
hit. -/
theorem C5_witness :
    _heavy_pipeline shaC trC smC db5C p0 =
      ⟨db5C, .ok { p0 with
                     transcript := some "T",
                     summary_raw := some
                       [("Patient Complaint", "No readout"),
                        ("Clinical Notes", "CN"), ("Diagnosis", "D"),
                        ("Treatment Plan", "TP")],
                     date := some "2026-01-01", analysis_ready := true },
       0, 0⟩ := by
  exact (C5_cache_hit_amended shaC trC smC db5C p0
    ⟨0, 1, 0, 0, "2026-01-01", "T", "", "CN", "D", "TP", "a.wav", "H"⟩ rfl).1

/-- C6 (amended).  Doctor creation is an idempotent upsert by name: two
invocations with the same name leave at most one new row (none when the
name already exists) and return the same id both times.  Patient
creation, however, is a plain INSERT on a table with no uniqueness
constraint: every invocation appends a fresh row and returns a fresh,
distinct id. -/
theorem C6_upsert_amended (db : DB) (name : String) :
    (insert_doctor (insert_doctor db name).1 name).2
      = (insert_doctor db name).2 ∧
    (insert_doctor (insert_doctor db name).1 name).1
      = (insert_doctor db name).1 ∧
    (db.doctors.find? (fun d => d.name == name) = none →
      (insert_doctor db name).1.doctors.length = db.doctors.length + 1) ∧
    (∀ d, db.doctors.find? (fun d2 => d2.name == name) = some d →
      (insert_doctor db name).1 = db ∧ (insert_doctor db name).2 = d.id) ∧
    (insert_patient db name).2
      ≠ (insert_patient (insert_patient db name).1 name).2 ∧
    (insert_patient (insert_patient db name).1 name).1.patients.length
      = db.patients.length + 2 := by
  have hdoc : (insert_doctor (insert_doctor db name).1 name)
      = ((insert_doctor db name).1, (insert_doctor db name).2) := by
    rcases hf : db.doctors.find? (fun d => d.name == name) with _ | d
    · have hsnd : ((db.doctors ++ [(⟨db.nextDoctorId, name⟩ : DoctorRow)]).find?
          (fun d => d.name == name)) = some (⟨db.nextDoctorId, name⟩ : DoctorRow) := by
        rw [find?_append_of_none _ _ _ hf]
        simp [List.find?_cons]
      simp [insert_doctor, hf, hsnd]
    · simp [insert_doctor, hf]
  refine ⟨?_, ?_, ?_, ?_, ?_, ?_⟩
  · rw [hdoc]
  · rw [hdoc]
  · intro hf
    simp [insert_doctor, hf]
  · intro d hf
    simp [insert_doctor, hf]
  · simp [insert_patient]
  · simp [insert_patient]

/-- C6 counterexample: inserting patient `"N"` twice into the empty
database creates two rows and returns two different ids (0 then 1) —
patient creation is not an idempotent upsert by name. -/
theorem C6_counterexample :
    (insert_patient db0 "N").2 = 0 ∧
    (insert_patient (insert_patient db0 "N").1 "N").2 = 1 ∧
    (insert_patient (insert_patient db0 "N").1 "N").1.patients.length = 2 := by
  decide

/-- C6 witness: the amended theorem applied to the empty database. -/
theorem C6_witness :
    (insert_doctor (insert_doctor db0 "N").1 "N").2
      = (insert_doctor db0 "N").2 ∧
    (insert_doctor db0 "N").1.doctors.length = db0.doctors.length + 1 := by
  have h := C6_upsert_amended db0 "N"
  exact ⟨h.1, h.2.2.1 rfl⟩

/-- Setting one key never removes another key already present. -/
theorem dictSet_keys_mono (d : List (String × JsonVal)) (k : String)
    (v : JsonVal) (k' : String)
    (h : d.any (fun kv => kv.1 == k') = true) :
    (dictSet d k v).any (fun kv => kv.1 == k') = true := by
  unfold dictSet
  by_cases hk : d.any (fun kv => kv.1 == k) = true
  · rw [if_pos hk]
    rcases List.any_eq_true.mp h with ⟨kv, hmem, hkv⟩
    apply List.any_eq_true.mpr
    refine ⟨if kv.1 == k then (k, v) else kv, List.mem_map_of_mem _ hmem, ?_⟩
    by_cases h2 : (kv.1 == k) = true
    · rw [if_pos h2]
      have ek : kv.1 = k := by simpa using h2
      have ek' : kv.1 = k' := by simpa using hkv
      simp [← ek, ek']
    · rw [if_neg h2]
      exact hkv
  · rw [if_neg hk, List.any_append]
    simp [h]

/-- The `dict.update` never removes a key already present. -/
theorem dictUpdate_keys_mono (l : List (String × JsonVal))
    (d : List (String × JsonVal)) (k' : String)
    (h : d.any (fun kv => kv.1 == k') = true) :
    (dictUpdate d l).any (fun kv => kv.1 == k') = true := by
  induction l generalizing d with
  | nil => exact h
  | cons kv rest ih => exact ih _ (dictSet_keys_mono _ _ _ _ h)

/-- The empty note holds every schema key. -/
theorem emptyNote_has_keys :
    ∀ k ∈ SCHEMA_KEYS, _empty_note.any (fun kv => kv.1 == k) = true := by
  decide

/-- Filling the fallback field of the empty note. -/
theorem dictSet_empty_note_diagnosis (v : JsonVal) :
    dictSet _empty_note "Diagnosis" v =
      [("Patient Complaint", .str ""), ("Clinical Notes", .str ""),
       ("Diagnosis", v), ("Treatment Plan", .str "")] := by
  rfl

/-- C4 (amended).  On an undecodable model response the adapter returns
the note with all four schema keys, the stripped raw response stored
under `Diagnosis` and the other fields as empty placeholders; on a
response decoding to a JSON object the adapter merges that object over
the empty note, so all four schema keys are present — but extra keys of
the object are retained as well (the mapping need not have exactly four
keys) and object values are taken as-is (not necessarily strings), and
the preserved fallback text is the stripped, not byte-verbatim,
response. -/
theorem C4_schema_amended (llm : List ChatMessage → ChatResult)
    (jsonLoads : String → Except Unit JsonVal) (transcript raw : String)
    (hraw : llm (summarizeMessages "telegraphic" (truncateTranscript transcript))
      = .ok raw) :
    (jsonLoads raw = .error () →
      summarize_transcript llm jsonLoads transcript =
        .ok [("Patient Complaint", .str ""), ("Clinical Notes", .str ""),
             ("Diagnosis", .str (pyStrip raw)), ("Treatment Plan", .str "")]) ∧
    (∀ fields, jsonLoads raw = .ok (.obj fields) →
      summarize_transcript llm jsonLoads transcript
        = .ok (dictUpdate _empty_note fields) ∧
      ∀ k ∈ SCHEMA_KEYS,
        (dictUpdate _empty_note fields).any (fun kv => kv.1 == k) = true) := by
  constructor
  · intro hjson
    simp only [summarize_transcript, hraw, noteFromRaw, hjson]
    rw [dictSet_empty_note_diagnosis]
  · intro fields hjson
    constructor
    · simp only [summarize_transcript, hraw, noteFromRaw, hjson]
    · intro k hk
      exact dictUpdate_keys_mono fields _ k (emptyNote_has_keys k hk)

/-- The raw model response of the C4 counterexample: a valid JSON object
whose only key is unrelated to the schema. -/
def rawC4 : String := "\x7b\"Unrelated\": \"x\"\x7d"

/-- An LLM oracle returning that response. -/
def llmC4 : List ChatMessage → ChatResult := fun _ => .ok rawC4

/-- The `json.loads` on `rawC4`: the one-field object (this is what Python's
parser yields on that text; other inputs are irrelevant here). -/
def jsonLoadsC4 : String → Except Unit JsonVal :=
  fun s => if s == rawC4 then .ok (.obj [("Unrelated", .str "x")])
           else .error ()

/-- C4 counterexample: a decodable response whose object carries an
extra key produces a note with five keys, not "exactly the four keys". -/
theorem C4_counterexample :
    summarize_transcript llmC4 jsonLoadsC4 "t" =
      .ok [("Patient Complaint", .str ""), ("Clinical Notes", .str ""),
           ("Diagnosis", .str ""), ("Treatment Plan", .str ""),
           ("Unrelated", .str "x")] ∧
    ([("Patient Complaint", JsonVal.str ""), ("Clinical Notes", JsonVal.str ""),
      ("Diagnosis", JsonVal.str ""), ("Treatment Plan", JsonVal.str ""),
      ("Unrelated", JsonVal.str "x")].map Prod.fst) ≠ SCHEMA_KEYS := by
  exact ⟨rfl, by decide⟩

/-- An LLM oracle returning an undecodable response with surrounding
whitespace. -/
def llmW4 : List ChatMessage → ChatResult := fun _ => .ok " g "

/-- The `json.loads` oracle for the witness: nothing decodes. -/
def jsonW4 : String → Except Unit JsonVal := fun _ => .error ()

/-- C4 witness: the amended theorem applied to an undecodable concrete
response. -/
theorem C4_witness :
    summarize_transcript llmW4 jsonW4 "t" =
      .ok [("Patient Complaint", .str ""), ("Clinical Notes", .str ""),
           ("Diagnosis", .str "g"), ("Treatment Plan", .str "")] := by
  have h := (C4_schema_amended llmW4 jsonW4 "t" " g " rfl).1 rfl
  have e : pyStrip " g " = "g" := by decide
  rw [e] at h
  exact h

/-- With enough fuel, concatenating the chunks gives back the lines. -/
theorem chunkListAux_join (fuel : Nat) :
    ∀ l : List String, l.length ≤ fuel → (chunkListAux fuel l).flatten = l := by
  induction fuel with
  | zero =>
      intro l h
      have hl : l = [] := List.eq_nil_of_length_eq_zero (Nat.le_zero.mp h)
      subst hl
      simp [chunkListAux]
  | succ n ih =>
      intro l h
      cases l with
      | nil => simp [chunkListAux]
      | cons x xs =>
          have he : chunkListAux (n + 1) (x :: xs)
              = (x :: xs).take 100 :: chunkListAux n ((x :: xs).drop 100) := rfl
          have hx : (x :: xs).length = xs.length + 1 := rfl
          rw [hx] at h
          rw [he, List.flatten_cons,
              ih ((x :: xs).drop 100) (by rw [List.length_drop, hx]; omega),
              List.take_append_drop]

/-- Every chunk has at most 100 lines. -/
theorem chunkListAux_mem_le (fuel : Nat) :
    ∀ (l : List String), ∀ c ∈ chunkListAux fuel l, c.length ≤ 100 := by
  induction fuel with
  | zero =>
      intro l c hc
      cases l <;> simp [chunkListAux] at hc
  | succ n ih =>
      intro l c hc
      cases l with
      | nil => simp [chunkListAux] at hc
      | cons x xs =>
          have he : chunkListAux (n + 1) (x :: xs)
              = (x :: xs).take 100 :: chunkListAux n ((x :: xs).drop 100) := rfl
          rw [he, List.mem_cons] at hc
          rcases hc with hc | hc
          · subst hc
            exact List.length_take_le 100 (x :: xs)
          · exact ih _ c hc

/-- C7.  The speaker-tagging pass of `transcribe_audio`: the chunks
partition the line list (nothing dropped, each chunk at most 100 lines),
and the final transcript is exactly the newline-join of one block per
chunk, where a chunk whose tagging call succeeds contributes the tagged
text and a chunk whose tagging call fails contributes its raw lines in
place. -/
theorem C7_tagging_partial_failure (tagger : String → Except Unit String)
    (lines : List String) :
    (chunkList lines).flatten = lines ∧
    tagStage tagger lines =
      String.intercalate "\n" ((chunkList lines).map (taggedBlock tagger)) ∧
    ((chunkList lines).map (taggedBlock tagger)).length
      = (chunkList lines).length ∧
    (∀ c ∈ chunkList lines, c.length ≤ 100) ∧
    (∀ c ∈ chunkList lines, ∀ t,
      tagger (String.intercalate "\n" c) = .ok t → taggedBlock tagger c = t) ∧
    (∀ c ∈ chunkList lines, ∀ e,
      tagger (String.intercalate "\n" c) = .error e →
        taggedBlock tagger c = String.intercalate "\n" c) := by
  refine ⟨chunkListAux_join lines.length lines (Nat.le_refl _), rfl, by simp,
    chunkListAux_mem_le lines.length lines, ?_, ?_⟩
  · intro c _ t ht
    simp [taggedBlock, ht]
  · intro c _ e he
    simp [taggedBlock, he]

/-- C7 witness: the theorem applied to a two-line transcript whose only
chunk fails to tag — the raw lines survive in place. -/
theorem C7_witness :
    (chunkList ["l1", "l2"]).flatten = ["l1", "l2"] ∧
    taggedBlock (fun _ => Except.error ()) ["l1", "l2"]
      = String.intercalate "\n" ["l1", "l2"] := by
  have h := C7_tagging_partial_failure (fun _ => Except.error ()) ["l1", "l2"]
  exact ⟨h.1, h.2.2.2.2.2 ["l1", "l2"] (by decide) () rfl⟩

/-- C8.  The summarization call stack raises its terminal RuntimeError
exactly when the primary model's three attempts end in a transient
(rate-limit/API) failure and the fallback model's three attempts also
all fail; a transient primary failure with a succeeding fallback returns
the fallback's text instead of raising; and at the pipeline boundary the
terminal error is caught and classified into `pipeline_error` — the run
completes instead of raising. -/
theorem C8_retry_fallback (prim fall : Nat → CallOutcome) :
    (safe_chat_completion prim fall = .terminal ↔
      ((retryCall prim 0 3 = .rateLimit ∨ retryCall prim 0 3 = .apiError) ∧
        ¬ ∃ s, retryCall fall 0 3 = .ok s)) ∧
    (∀ s, (retryCall prim 0 3 = .rateLimit ∨ retryCall prim 0 3 = .apiError) →
      retryCall fall 0 3 = .ok s → safe_chat_completion prim fall = .ok s) ∧
    (∀ (sha : String → String) (tr : String → Except Unit String)
        (sm : String → Except SummErr (List (String × String)))
        (db : DB) (p : Payload) (t msg : String),
      get_existing_session_by_hash db p.user_id (sha p.audio_path) = none →
      tr p.audio_path = .ok t → t ≠ "" →
      sm t = .error (.runtime msg) →
      raisedRun (_heavy_pipeline sha tr sm db p) = false ∧
      pipelineErrorOf (_heavy_pipeline sha tr sm db p) = some msg) := by
  refine ⟨?_, ?_, ?_⟩
  · cases hp : retryCall prim 0 3 <;> cases hf : retryCall fall 0 3 <;>
      simp [safe_chat_completion, fallbackCompletion, hp, hf]
  · intro s hp hf
    rcases hp with hp | hp <;>
      simp [safe_chat_completion, fallbackCompletion, hp, hf]
  · intro sha tr sm db p t msg hcache htr ht hsm
    have hrun : _heavy_pipeline sha tr sm db p =
        ⟨db, .ok { p with pipeline_error := some msg }, 1, 1⟩ := by
      unfold _heavy_pipeline _heavy_pipeline_stale
      simp only [hcache, htr, hsm]
      rw [if_neg (by simp [ht])]
    simp [hrun, raisedRun, pipelineErrorOf]

/-- C8 witness: a rate-limited primary with a succeeding fallback
returns the fallback's answer rather than raising. -/
theorem C8_witness :
    safe_chat_completion (fun _ => CallOutcome.rateLimit)
      (fun _ => CallOutcome.ok "S") = ChatResult.ok "S" := by
  exact (C8_retry_fallback (fun _ => CallOutcome.rateLimit)
    (fun _ => CallOutcome.ok "S")).2.1 "S" (Or.inl rfl) rfl

/-- Lengths of Python slices: `s[:n]` keeps `min n (len s)` characters. -/
theorem pyStringSlice_length (s : String) (n : Nat) :
    (pyStringSlice s n).length = min n s.length := by
  unfold pyStringSlice
  rw [String.length, String.length]
  exact List.length_take n s.data

/-- C9.  A transcript longer than 15000 characters is truncated to its
first 15000 characters before the prompt is built, so the messages sent
to the model — and hence the resulting note — are those of the truncated
transcript: content beyond the bound never influences the result. -/
theorem C9_truncation (llm : List ChatMessage → ChatResult)
    (jsonLoads : String → Except Unit JsonVal) (transcript : String)
    (hlong : transcript.length > 15000) :
    truncateTranscript transcript = pyStringSlice transcript 15000 ∧
    summarizeMessages "telegraphic" (truncateTranscript transcript)
      = summarizeMessages "telegraphic" (pyStringSlice transcript 15000) ∧
    summarize_transcript llm jsonLoads transcript
      = summarize_transcript llm jsonLoads (pyStringSlice transcript 15000) := by
  have h1 : truncateTranscript transcript = pyStringSlice transcript 15000 := by
    unfold truncateTranscript
    rw [if_pos hlong]
  have hlen : (pyStringSlice transcript 15000).length = 15000 := by
    rw [pyStringSlice_length]
    omega
  have h2 : truncateTranscript (pyStringSlice transcript 15000)
      = pyStringSlice transcript 15000 := by
    unfold truncateTranscript
    rw [if_neg (by simp [hlen])]
  refine ⟨h1, by rw [h1], ?_⟩
  simp only [summarize_transcript]
  rw [h1, h2]

/-- A 15001-character transcript. -/
def longT : String := ⟨List.replicate 15001 'a'⟩

/-- A terminal LLM oracle (its value is irrelevant to C9). -/
def llmW9 : List ChatMessage → ChatResult := fun _ => .terminal

/-- A `json.loads` oracle for the C9 witness. -/
def jsonW9 : String → Except Unit JsonVal := fun _ => .error ()

/-- C9 witness: the theorem applied to the concrete 15001-character
transcript. -/
theorem C9_witness :
    summarize_transcript llmW9 jsonW9 longT
      = summarize_transcript llmW9 jsonW9 (pyStringSlice longT 15000) := by
  exact (C9_truncation llmW9 jsonW9 longT
    (by rw [longT, String.length, List.length_replicate]; omega)).2.2

/-- C10.  `refresh_jobs` marks a completed future done even when its
payload carries a classified `pipeline_error`; the error status arises
from a refresh only for a future that raised; a pending future is left
untouched; and the session id is copied into a fresh job entry exactly
as present in the completed payload (absent stays absent). -/
theorem C10_job_status (job : Job) (res : Payload) (e : String) :
    (job.future = .completed res → (refreshJob job).status = statusDone) ∧
    (job.future = .completed res → res.pipeline_error = some e →
      (refreshJob job).status = statusDone ∧
      (refreshJob job).status ≠ statusError) ∧
    (job.future = .raised → (refreshJob job).status = statusError) ∧
    (job.future = .pending → refreshJob job = job) ∧
    ((refreshJob job).status = statusError →
      job.future = .raised ∨ job.status = statusError) ∧
    (job.future = .completed res → job.session_id = none →
      (refreshJob job).session_id = res.session_id) := by
  refine ⟨?_, ?_, ?_, ?_, ?_, ?_⟩
  · intro h
    cases hs : res.session_id <;> simp [refreshJob, h, hs]
  · intro h _
    cases hs : res.session_id <;>
      simp [refreshJob, h, hs, statusDone, statusError]
  · intro h
    simp [refreshJob, h]
  · intro h
    simp [refreshJob, h]
  · intro h
    cases hfut : job.future with
    | pending =>
        right
        simpa [refreshJob, hfut] using h
    | raised => exact Or.inl rfl
    | completed res' =>
        rcases hs : res'.session_id with _ | v <;>
          · rw [refreshJob] at h
            simp [hfut, hs, statusDone, statusError] at h
  · intro h hnone
    cases hs : res.session_id <;> simp [refreshJob, h, hs, hnone]

/-- The completed payload of the C10 witness: a classified summarization
failure, no session id. -/
def resW : Payload :=
  { p0 with pipeline_error := some "LLM request failed after retries" }

/-- C10 witness: a job whose future completed with a classified pipeline
error is reported done. -/
theorem C10_witness :
    (refreshJob (add_job (FutState.completed resW))).status = statusDone := by
  exact (C10_job_status (add_job (FutState.completed resW)) resW
    "LLM request failed after retries").1 rfl
